import Mathlib

/-!
Shallow embedding of the TranslateApp client (src/translate/index.tsx).

The app has two service classes and a handful of screen-level handlers:
GeminiService (translateText / translateImage), StorageService
(saveRecord / getRecords), the TextTranslator and ImageTranslator submit
handlers, the HistoryView fetch-and-sort effect, and the camera
capture / unmount-cleanup logic of ImageTranslator.

Network I/O is modelled by an explicit outcome parameter: the embedding
takes, alongside the source arguments, a value describing what the
underlying transport did (threw, or returned a response with a given
optional text / body). JavaScript string truthiness and the behaviour of
the or-operator on possibly-absent response fields are modelled
explicitly below.
-/

/-- Whitespace per the ECMAScript definition used by String.prototype.trim:
tab, LF, VT, FF, CR, space, NBSP, BOM, line and paragraph separators, and
the Unicode space separators. -/
def jsWhitespace (c : Char) : Bool :=
  c = ' ' || c = '\t' || c = '\n' || c = '\r' ||
  c = Char.ofNat 0x0B || c = Char.ofNat 0x0C || c = Char.ofNat 0xA0 ||
  c = Char.ofNat 0x1680 ||
  (0x2000 ≤ c.toNat && c.toNat ≤ 0x200A) ||
  c = Char.ofNat 0x2028 || c = Char.ofNat 0x2029 ||
  c = Char.ofNat 0x202F || c = Char.ofNat 0x205F ||
  c = Char.ofNat 0x3000 || c = Char.ofNat 0xFEFF

/-- Embeds JavaScript String.prototype.trim: drop leading and trailing
ECMAScript whitespace. -/
def jsTrim (s : String) : String :=
  String.mk (((s.toList.dropWhile jsWhitespace).reverse.dropWhile jsWhitespace).reverse)

/-- Embeds the JavaScript expression `t || d` where `t` is a string field
that may be absent: an absent or empty (falsy) string yields the default. -/
def jsOrElse (t : Option String) (d : String) : String :=
  match t with
  | some s => if s = "" then d else s
  | none => d

/-- Record kind: the `type` field of a TranslationRecord
(`'text' | 'image' | 'camera'` in the source). -/
inductive RecType where
  | text
  | image
  | camera
deriving DecidableEq, Repr

/-- Embeds the TranslationRecord interface of the source. `timestamp` is
epoch milliseconds (an integer-valued Date.now in the source). -/
structure TranslationRecord where
  id : String
  type : RecType
  original : String
  translated : String
  sourceLang : String
  targetLang : String
  timestamp : Nat
deriving DecidableEq, Repr

/-- Embeds `Omit<TranslationRecord, 'id' | 'timestamp'>`: the argument the
callers pass to StorageService.saveRecord. -/
structure RecordInput where
  type : RecType
  original : String
  translated : String
  sourceLang : String
  targetLang : String
deriving DecidableEq, Repr

/-- Outcome of the POST performed by saveRecord: the fetch either threw
(network error, caught and logged by the source) or resolved. -/
inductive PostOutcome where
  | thrown
  | ok
deriving DecidableEq, Repr

/-- Result of saveRecord in the embedding: the returned record, plus a
flag recording whether a network request was issued at all. -/
structure SaveResult where
  record : TranslationRecord
  networkCalled : Bool
deriving DecidableEq, Repr

/-- Embeds StorageService.saveRecord. `sheetUrl` is the configured
VITE_GOOGLE_SHEET_URL (empty string when unconfigured, matching the
source default), `uuid` is the value produced by crypto.randomUUID, and
`now` the value of Date.now at the call. The source constructs the full
record first, returns it immediately when the URL is falsy, and otherwise
returns it whether or not the POST threw (the error is only logged). -/
def saveRecord (sheetUrl uuid : String) (now : Nat) (record : RecordInput)
    (net : PostOutcome) : SaveResult :=
  let newRecord : TranslationRecord :=
    { id := uuid
      type := record.type
      original := record.original
      translated := record.translated
      sourceLang := record.sourceLang
      targetLang := record.targetLang
      timestamp := now }
  if sheetUrl = "" then { record := newRecord, networkCalled := false }
  else
    match net with
    | PostOutcome.thrown => { record := newRecord, networkCalled := true }
    | PostOutcome.ok => { record := newRecord, networkCalled := true }

/-- Outcome of the GET performed by getRecords: the fetch threw, or it
resolved with a status flag (response.ok) and a body. The body is `none`
when response.json() failed to parse, and otherwise carries an optional
`data` field. -/
inductive FetchOutcome where
  | thrown
  | resp (ok : Bool) (body : Option (Option (List TranslationRecord)))
deriving DecidableEq, Repr

/-- Embeds StorageService.getRecords. Unconfigured URL returns an empty
list with no request; a thrown fetch, a non-ok status (the source throws
and catches it) and an unparsable body all yield an empty list; otherwise
the result is `json.data || []`. -/
def getRecords (sheetUrl : String) (net : FetchOutcome) : List TranslationRecord :=
  if sheetUrl = "" then []
  else
    match net with
    | FetchOutcome.thrown => []
    | FetchOutcome.resp ok body =>
      if ok = false then []
      else
        match body with
        | none => []
        | some d => d.getD []

/-- Outcome of the generateContent call made by GeminiService: the await
either threw (network or API error, caught by the source) or resolved
with a response whose text field may be absent. -/
inductive TransportOutcome where
  | thrown
  | ok (text : Option String)
deriving DecidableEq, Repr

/-- Result of translateText in the embedding: the returned string, plus a
flag recording whether a network request was issued at all. -/
structure TextCallResult where
  result : String
  networkCalled : Bool
deriving DecidableEq, Repr

/-- Embeds GeminiService.translateText. The source returns an empty
string without a request when `text.trim()` is falsy, converts a thrown
transport error to a fixed error string, and otherwise returns
`response.text || "Translation failed."`. -/
def translateText (text sourceLang targetLang : String)
    (net : TransportOutcome) : TextCallResult :=
  if jsTrim text = "" then { result := "", networkCalled := false }
  else
    match net with
    | TransportOutcome.thrown =>
      { result := "Error: Could not translate text.", networkCalled := true }
    | TransportOutcome.ok t =>
      { result := jsOrElse t "Translation failed.", networkCalled := true }

/-- Anchored literal matcher: `dropMark p s` returns the remainder of `s`
after the leading occurrence of `p`, or `none` when `s` does not begin
with `p`. -/
def dropMark : List Char → List Char → Option (List Char)
  | [], s => some s
  | _ :: _, [] => none
  | c :: p, d :: s => if c = d then dropMark p s else none

/-- Tries each pattern in order and removes the first one that matches
the start of `s`; this embeds an anchored regex alternation applied with
a single replacement. -/
def stripFirstMark : List String → String → String
  | [], s => s
  | p :: ps, s =>
    match dropMark p.toList s.toList with
    | some rest => String.mk rest
    | none => stripFirstMark ps s

/-- The four data-URI headers matched by the regex in
GeminiService.translateImage, in the alternation order of the source
(png, jpeg, jpg, webp). -/
def imageUriMarks : List String :=
  ["data:image/png;base64,", "data:image/jpeg;base64,",
   "data:image/jpg;base64,", "data:image/webp;base64,"]

/-- Embeds the cleanBase64 computation of GeminiService.translateImage:
`base64Image.replace(anchored png|jpeg|jpg|webp data-URI regex, "")`. -/
def cleanBase64 (s : String) : String := stripFirstMark imageUriMarks s

/-- The inlineData part GeminiService.translateImage sends to the model:
a mime type label and the (possibly cleaned) payload string. -/
structure ImagePayload where
  mimeType : String
  data : String
deriving DecidableEq, Repr

/-- Embeds GeminiService.translateImage. Returns the result string and
the inlineData payload forwarded to the transport. The source always
labels the payload with mime type image/jpeg, converts a thrown error to
a fixed error string, and otherwise returns
`response.text || "Analysis failed."`. -/
def translateImage (base64Image sourceLang targetLang : String)
    (net : TransportOutcome) : String × ImagePayload :=
  let payload : ImagePayload := { mimeType := "image/jpeg", data := cleanBase64 base64Image }
  match net with
  | TransportOutcome.thrown => ("Error: Could not analyze image.", payload)
  | TransportOutcome.ok t => (jsOrElse t "Analysis failed.", payload)

/-- C1: for every record input, saveRecord returns a complete record with
a non-empty id (crypto.randomUUID yields a 36-character, hence non-empty,
string — the hypothesis on `uuid`) and the capture-time timestamp; the
returned record is the same whether the remote write succeeds or throws;
and when no store endpoint is configured no network request is made. -/
theorem saveRecord_complete (url uuid : String) (now : Nat) (r : RecordInput)
    (net net2 : PostOutcome) (huuid : uuid ≠ "") :
    (saveRecord url uuid now r net).record.id ≠ "" ∧
    (saveRecord url uuid now r net).record.timestamp = now ∧
    (saveRecord url uuid now r net).record = (saveRecord url uuid now r net2).record ∧
    (saveRecord "" uuid now r net).networkCalled = false := by
  by_cases h : url = "" <;>
    cases net <;> cases net2 <;>
      simp [saveRecord, h, huuid]

/-- Witness for C1 at a concrete input. -/
theorem saveRecord_complete_witness :
    (saveRecord "" "5a9c2f10-3a1b-4a6d-9e2f-0c1d2e3f4a5b" 42
      { type := RecType.text, original := "Hello", translated := "안녕하세요",
        sourceLang := "English", targetLang := "한국어" }
      PostOutcome.ok).record.id ≠ "" ∧
    (saveRecord "" "5a9c2f10-3a1b-4a6d-9e2f-0c1d2e3f4a5b" 42
      { type := RecType.text, original := "Hello", translated := "안녕하세요",
        sourceLang := "English", targetLang := "한국어" }
      PostOutcome.ok).record.timestamp = 42 ∧
    (saveRecord "" "5a9c2f10-3a1b-4a6d-9e2f-0c1d2e3f4a5b" 42
      { type := RecType.text, original := "Hello", translated := "안녕하세요",
        sourceLang := "English", targetLang := "한국어" }
      PostOutcome.ok).record =
    (saveRecord "" "5a9c2f10-3a1b-4a6d-9e2f-0c1d2e3f4a5b" 42
      { type := RecType.text, original := "Hello", translated := "안녕하세요",
        sourceLang := "English", targetLang := "한국어" }
      PostOutcome.thrown).record ∧
    (saveRecord "" "5a9c2f10-3a1b-4a6d-9e2f-0c1d2e3f4a5b" 42
      { type := RecType.text, original := "Hello", translated := "안녕하세요",
        sourceLang := "English", targetLang := "한국어" }
      PostOutcome.ok).networkCalled = false :=
  saveRecord_complete "" "5a9c2f10-3a1b-4a6d-9e2f-0c1d2e3f4a5b" 42
    { type := RecType.text, original := "Hello", translated := "안녕하세요",
      sourceLang := "English", targetLang := "한국어" }
    PostOutcome.ok PostOutcome.thrown (by decide)

/-- C9: the record returned by saveRecord carries the caller fields
unchanged; only id and timestamp are added. (The source builds a fresh
object by spreading the input, so the input object is not mutated; in
the embedding this is reflected by saveRecord being a pure function of
its input.) -/
theorem saveRecord_frame (url uuid : String) (now : Nat) (r : RecordInput)
    (net : PostOutcome) :
    (saveRecord url uuid now r net).record.type = r.type ∧
    (saveRecord url uuid now r net).record.original = r.original ∧
    (saveRecord url uuid now r net).record.translated = r.translated ∧
    (saveRecord url uuid now r net).record.sourceLang = r.sourceLang ∧
    (saveRecord url uuid now r net).record.targetLang = r.targetLang ∧
    (saveRecord url uuid now r net).record.id = uuid ∧
    (saveRecord url uuid now r net).record.timestamp = now := by
  by_cases h : url = "" <;> cases net <;> simp [saveRecord, h]

/-- C2: getRecords never throws and returns an empty list when the
endpoint is unconfigured, when the fetch throws, when the response has a
non-success status, or when the body cannot be parsed; with a configured
endpoint and a successful response carrying a data field, it returns
exactly that list. Totality of the embedded function reflects that every
failure path in the source is caught. -/
theorem getRecords_total (url : String) (net : FetchOutcome)
    (b : Option (Option (List TranslationRecord))) (l : List TranslationRecord) :
    getRecords "" net = [] ∧
    getRecords url FetchOutcome.thrown = [] ∧
    getRecords url (FetchOutcome.resp false b) = [] ∧
    getRecords url (FetchOutcome.resp true none) = [] ∧
    (url ≠ "" → getRecords url (FetchOutcome.resp true (some (some l))) = l) := by
  refine ⟨?_, ?_, ?_, ?_, ?_⟩
  · cases net <;> simp [getRecords]
  · by_cases h : url = "" <;> simp [getRecords, h]
  · by_cases h : url = "" <;> simp [getRecords, h]
  · by_cases h : url = "" <;> simp [getRecords, h]
  · intro h
    simp [getRecords, h]

/-- Witness for C2 at concrete inputs. -/
theorem getRecords_total_witness :
    getRecords "u" (FetchOutcome.resp true
      (some (some [⟨"a", RecType.text, "o", "t", "English", "한국어", 7⟩]))) =
      [⟨"a", RecType.text, "o", "t", "English", "한국어", 7⟩] :=
  (getRecords_total "u" FetchOutcome.thrown none
    [⟨"a", RecType.text, "o", "t", "English", "한국어", 7⟩]).2.2.2.2 (by decide)

/-- C3: for every input consisting only of whitespace (the empty string
included), translateText returns the empty string and performs no
network call, whatever the language arguments and whatever the transport
would have done. -/
theorem translateText_whitespace (text sourceLang targetLang : String)
    (net : TransportOutcome)
    (h : ∀ c ∈ text.toList, jsWhitespace c = true) :
    translateText text sourceLang targetLang net =
      { result := "", networkCalled := false } := by
  have hd : text.toList.dropWhile jsWhitespace = [] := by
    rw [List.dropWhile_eq_nil_iff]
    intro x hx
    exact h x hx
  have ht : jsTrim text = "" := by
    unfold jsTrim
    rw [hd]
    rfl
  simp [translateText, ht]

/-- Witness for C3 at a concrete whitespace input. -/
theorem translateText_whitespace_witness :
    translateText " " "English" "한국어" TransportOutcome.thrown =
      { result := "", networkCalled := false } :=
  translateText_whitespace " " "English" "한국어" TransportOutcome.thrown (by decide)

/-- C4: neither translateText nor translateImage propagates an exception
(both embedded functions are total, reflecting the catch-all in the
source); a thrown transport error yields the fixed string for the
respective operation, and a response carrying no text (absent, or the
falsy empty string) yields the fixed failure string. For translateText
the transport is only reached when the input is not all whitespace. -/
theorem translate_fixed_error_strings (text img sourceLang targetLang : String) :
    (jsTrim text ≠ "" →
      (translateText text sourceLang targetLang TransportOutcome.thrown).result =
        "Error: Could not translate text.") ∧
    (jsTrim text ≠ "" → ∀ t : Option String, (t = none ∨ t = some "") →
      (translateText text sourceLang targetLang (TransportOutcome.ok t)).result =
        "Translation failed.") ∧
    (translateImage img sourceLang targetLang TransportOutcome.thrown).1 =
      "Error: Could not analyze image." ∧
    (∀ t : Option String, (t = none ∨ t = some "") →
      (translateImage img sourceLang targetLang (TransportOutcome.ok t)).1 =
        "Analysis failed.") := by
  refine ⟨?_, ?_, rfl, ?_⟩
  · intro h
    simp [translateText, h]
  · intro h t ht
    rcases ht with rfl | rfl <;> simp [translateText, h, jsOrElse]
  · intro t ht
    rcases ht with rfl | rfl <;> rfl

/-- Witness for C4 at concrete inputs. -/
theorem translate_fixed_error_strings_witness :
    ((translateText "Hello" "English" "한국어" TransportOutcome.thrown).result =
      "Error: Could not translate text.") ∧
    ((translateText "Hello" "English" "한국어" (TransportOutcome.ok none)).result =
      "Translation failed.") ∧
    ((translateImage "abc" "English" "한국어" TransportOutcome.thrown).1 =
      "Error: Could not analyze image.") ∧
    ((translateImage "abc" "English" "한국어" (TransportOutcome.ok (some ""))).1 =
      "Analysis failed.") := by
  have h := translate_fixed_error_strings "Hello" "abc" "English" "한국어"
  exact ⟨h.1 (by decide), h.2.1 (by decide) none (Or.inl rfl), h.2.2.1,
    h.2.2.2 (some "") (Or.inr rfl)⟩

/-- Matching a pattern against itself followed by anything succeeds and
returns the tail. -/
theorem dropMark_self (p r : List Char) : dropMark p (p ++ r) = some r := by
  induction p with
  | nil => rfl
  | cons c cs ih => simp [dropMark, ih]

/-- Helper for C5: an input beginning with one of the four recognised
data-URI headers has exactly that header removed by cleanBase64. -/
theorem cleanBase64_strip (p rest : String) (hp : p ∈ imageUriMarks) :
    cleanBase64 (p ++ rest) = rest := by
  simp only [imageUriMarks, List.mem_cons, List.not_mem_nil, or_false] at hp
  rcases hp with rfl | rfl | rfl | rfl <;> rfl

/-- Counterexample for C5: a gif data URI is not matched by the regex in
translateImage, so the payload forwarded to the transport is the whole
input and still begins with the data-URI header "data:image/gif;base64,". -/
theorem translateImage_gif_kept :
    (translateImage "data:image/gif;base64,QUJD" "English" "한국어"
      (TransportOutcome.ok (some "t"))).2.data =
      "data:image/gif;base64," ++ "QUJD" := rfl

/-- C5 amended: translateImage strips a leading data-URI header only for
the four mime types of its regex (png, jpeg, jpg, webp); for an input
beginning with one of those headers the payload is the input with that
header removed, while any other data-URI header (gif, for instance) is
forwarded unchanged. -/
theorem translateImage_known_marks_stripped (rest sourceLang targetLang : String)
    (net : TransportOutcome) (p : String) (hp : p ∈ imageUriMarks) :
    (translateImage (p ++ rest) sourceLang targetLang net).2.data = rest ∧
    (translateImage ("data:image/gif;base64," ++ rest) sourceLang targetLang net).2.data =
      "data:image/gif;base64," ++ rest := by
  have h1 := cleanBase64_strip p rest hp
  cases net <;> exact ⟨h1, rfl⟩

/-- Witness for the amended C5 at a concrete input. -/
theorem translateImage_known_marks_stripped_witness :
    (translateImage ("data:image/png;base64," ++ "iVBORw0KGgo") "English" "한국어"
      (TransportOutcome.ok (some "t"))).2.data = "iVBORw0KGgo" ∧
    (translateImage ("data:image/gif;base64," ++ "iVBORw0KGgo") "English" "한국어"
      (TransportOutcome.ok (some "t"))).2.data =
      "data:image/gif;base64," ++ "iVBORw0KGgo" :=
  translateImage_known_marks_stripped "iVBORw0KGgo" "English" "한국어"
    (TransportOutcome.ok (some "t")) "data:image/png;base64," (by decide)

/-- C10: translateImage labels every payload with mime type image/jpeg,
whatever the input and whatever the transport does; in particular a png
data URI is forwarded tagged as jpeg. -/
theorem translateImage_mime_always_jpeg (img sourceLang targetLang : String)
    (net : TransportOutcome) :
    (translateImage img sourceLang targetLang net).2.mimeType = "image/jpeg" ∧
    (translateImage "data:image/png;base64,iVBORw0KGgo" sourceLang targetLang
      net).2.mimeType = "image/jpeg" := by
  cases net <;> exact ⟨rfl, rfl⟩

/-- Descending-timestamp order used by the HistoryView sort comparator
`(a, b) => b.timestamp - a.timestamp`: a record comes before another when
its timestamp is at least as large. -/
def tsDesc (a b : TranslationRecord) : Prop := b.timestamp ≤ a.timestamp

instance : DecidableRel tsDesc := fun _ _ => Nat.decLe _ _

instance : IsTotal TranslationRecord tsDesc :=
  ⟨fun a b => Nat.le_total b.timestamp a.timestamp⟩

instance : IsTrans TranslationRecord tsDesc :=
  ⟨fun _ _ _ h1 h2 => Nat.le_trans h2 h1⟩

/-- Embeds the sort in the HistoryView fetch effect:
`data.sort((a, b) => b.timestamp - a.timestamp)`, a stable sort placing
larger timestamps first, realised here as a stable insertion sort over
the same order. -/
def sortByTimestampDesc (l : List TranslationRecord) : List TranslationRecord :=
  l.insertionSort tsDesc

/-- Embeds HistoryView.fetchHistory: fetch the records and store them
sorted newest first. -/
def fetchHistory (sheetUrl : String) (net : FetchOutcome) : List TranslationRecord :=
  sortByTimestampDesc (getRecords sheetUrl net)

/-- C6: the History screen stores the fetched list sorted by timestamp
descending (newest first), the sorted list being a permutation of the
fetched one with timestamp the sole sort key; on records with timestamps
[100, 300, 200] the stored order of timestamps is [300, 200, 100]. -/
theorem fetchHistory_sorted (url : String) (net : FetchOutcome) :
    (fetchHistory url net).Sorted tsDesc ∧
    List.Perm (fetchHistory url net) (getRecords url net) ∧
    (sortByTimestampDesc
      [⟨"a", RecType.text, "o1", "t1", "English", "한국어", 100⟩,
       ⟨"b", RecType.text, "o2", "t2", "English", "한국어", 300⟩,
       ⟨"c", RecType.text, "o3", "t3", "English", "한국어", 200⟩]).map
      TranslationRecord.timestamp = [300, 200, 100] :=
  ⟨List.sorted_insertionSort tsDesc (getRecords url net),
   List.perm_insertionSort tsDesc (getRecords url net), by decide⟩

/-- Acquisition mode of the ImageTranslator screen. -/
inductive AcqMode where
  | upload
  | camera
deriving DecidableEq, Repr

/-- Shared helper: the record constructed by saveRecord, spelled out. -/
theorem saveRecord_record (sheetUrl uuid : String) (now : Nat) (r : RecordInput)
    (net : PostOutcome) :
    (saveRecord sheetUrl uuid now r net).record =
      { id := uuid, type := r.type, original := r.original,
        translated := r.translated, sourceLang := r.sourceLang,
        targetLang := r.targetLang, timestamp := now } := by
  by_cases h : sheetUrl = "" <;> cases net <;> simp [saveRecord, h]

/-- Shared helper: the JavaScript or-default on an optional string is
never empty when the default is not. -/
theorem jsOrElse_ne_empty (t : Option String) (d : String) (hd : d ≠ "") :
    jsOrElse t d ≠ "" := by
  cases t with
  | none => exact hd
  | some s => by_cases h : s = "" <;> simp [jsOrElse, h, hd]

/-- Embeds TextTranslator.handleTranslate: a falsy (empty) input returns
without doing anything; otherwise the text is translated and the result
is passed to saveRecord with type text and original set to the input.
Returns the record the save constructs, or none when the guard fired. -/
def handleTranslateText (input sourceLang targetLang : String)
    (net : TransportOutcome) (sheetUrl uuid : String) (now : Nat)
    (postNet : PostOutcome) : Option TranslationRecord :=
  if input = "" then none
  else
    let result := (translateText input sourceLang targetLang net).result
    some (saveRecord sheetUrl uuid now
      { type := RecType.text, original := input, translated := result,
        sourceLang := sourceLang, targetLang := targetLang } postNet).record

/-- Embeds ImageTranslator.handleTranslate: a missing (null) or empty
image returns without doing anything; otherwise the image is analyzed and
saved with type image (upload mode) or camera (camera mode). -/
def handleTranslateImage (image : Option String) (mode : AcqMode)
    (sourceLang targetLang : String) (net : TransportOutcome)
    (sheetUrl uuid : String) (now : Nat) (postNet : PostOutcome) :
    Option TranslationRecord :=
  match image with
  | none => none
  | some img =>
    if img = "" then none
    else
      let result := (translateImage img sourceLang targetLang net).1
      some (saveRecord sheetUrl uuid now
        { type := (match mode with
            | AcqMode.upload => RecType.image
            | AcqMode.camera => RecType.camera),
          original := img, translated := result,
          sourceLang := sourceLang, targetLang := targetLang } postNet).record

/-- Counterexample for C7: a single-space input is non-empty, so the
guard in the text submit handler does not fire, yet translateText
returns the empty string for it (all-whitespace input); the created
record therefore has an empty translated field. -/
theorem textRecord_empty_translated :
    (handleTranslateText " " "English" "한국어" (TransportOutcome.ok (some "안녕"))
      "" "u1" 5 PostOutcome.ok).map TranslationRecord.translated = some "" := by
  decide

/-- Shared helper: translateText on a non-whitespace input converts a
thrown transport error to the fixed error string. -/
theorem translateText_thrown (text sourceLang targetLang : String)
    (h : jsTrim text ≠ "") :
    translateText text sourceLang targetLang TransportOutcome.thrown =
      { result := "Error: Could not translate text.", networkCalled := true } := by
  simp [translateText, h]

/-- Shared helper: translateText on a non-whitespace input returns the
or-default of the response text. -/
theorem translateText_ok (text sourceLang targetLang : String)
    (t : Option String) (h : jsTrim text ≠ "") :
    translateText text sourceLang targetLang (TransportOutcome.ok t) =
      { result := jsOrElse t "Translation failed.", networkCalled := true } := by
  simp [translateText, h]

/-- C7 amended: every record created by the submit handlers has a
non-empty original field; image and camera records always have a
non-empty translated field, and text records have a non-empty translated
field whenever the input contains a non-whitespace character; on a thrown
transport error the translated field holds the fixed human-readable error
text. The sole gap in the original claim is a text input that is
non-empty but all whitespace, for which translated is the empty string. -/
theorem record_fields_amended (input img sourceLang targetLang : String)
    (mode : AcqMode) (net : TransportOutcome) (sheetUrl uuid : String)
    (now : Nat) (postNet : PostOutcome) :
    (∀ r, handleTranslateText input sourceLang targetLang net sheetUrl uuid now
        postNet = some r →
      r.original = input ∧ r.original ≠ "" ∧
      (jsTrim input ≠ "" → r.translated ≠ "") ∧
      (jsTrim input ≠ "" → net = TransportOutcome.thrown →
        r.translated = "Error: Could not translate text.")) ∧
    (∀ r, handleTranslateImage (some img) mode sourceLang targetLang net sheetUrl
        uuid now postNet = some r →
      r.original = img ∧ r.original ≠ "" ∧ r.translated ≠ "" ∧
      (net = TransportOutcome.thrown →
        r.translated = "Error: Could not analyze image.")) := by
  constructor
  · intro r hr
    by_cases hi : input = ""
    · simp [handleTranslateText, hi] at hr
    · simp only [handleTranslateText, if_neg hi, saveRecord_record,
        Option.some_inj] at hr
      subst hr
      refine ⟨rfl, hi, ?_, ?_⟩
      · intro ht
        show (translateText input sourceLang targetLang net).result ≠ ""
        cases net with
        | thrown =>
          rw [translateText_thrown input sourceLang targetLang ht]
          decide
        | ok t =>
          rw [translateText_ok input sourceLang targetLang t ht]
          exact jsOrElse_ne_empty t "Translation failed." (by decide)
      · intro ht hnet
        subst hnet
        show (translateText input sourceLang targetLang
          TransportOutcome.thrown).result = _
        rw [translateText_thrown input sourceLang targetLang ht]
  · intro r hr
    by_cases hi : img = ""
    · simp [handleTranslateImage, hi] at hr
    · simp only [handleTranslateImage, if_neg hi, saveRecord_record,
        Option.some_inj] at hr
      subst hr
      refine ⟨rfl, hi, ?_, ?_⟩
      · cases net with
        | thrown => simp [translateImage]
        | ok t => exact jsOrElse_ne_empty t "Analysis failed." (by decide)
      · intro hnet
        subst hnet
        rfl

/-- Witness for the amended C7 at concrete inputs (thrown transport,
unconfigured store endpoint). -/
theorem record_fields_amended_witness :
    ({ id := "u1", type := RecType.text, original := "Hello",
       translated := "Error: Could not translate text.", sourceLang := "English",
       targetLang := "한국어", timestamp := 5 } : TranslationRecord).original =
      "Hello" ∧
    ({ id := "u1", type := RecType.text, original := "Hello",
       translated := "Error: Could not translate text.", sourceLang := "English",
       targetLang := "한국어", timestamp := 5 } : TranslationRecord).translated =
      "Error: Could not translate text." := by
  have h := (record_fields_amended "Hello" "img64" "English" "한국어" AcqMode.upload
    TransportOutcome.thrown "" "u1" 5 PostOutcome.ok).1
    { id := "u1", type := RecType.text, original := "Hello",
      translated := "Error: Could not translate text.", sourceLang := "English",
      targetLang := "한국어", timestamp := 5 } (by decide)
  exact ⟨h.1, h.2.2.2 (by decide) rfl⟩

/-- A MediaStreamTrack in the embedding: records how many times stop has
been invoked on it. -/
structure Track where
  stopCalls : Nat
deriving DecidableEq, Repr

/-- A track is live until stop has been called on it at least once. -/
def Track.live (t : Track) : Bool := t.stopCalls = 0

/-- Embeds `stream.getTracks().forEach(t => t.stop())`: one stop call is
issued to every track of the stream. -/
def stopTracks (s : List Track) : List Track :=
  s.map (fun t => { stopCalls := t.stopCalls + 1 })

/-- Camera-relevant state of the ImageTranslator screen: the stream held
in videoRef.current.srcObject (none when no stream is attached), the
isCameraActive flag, and the captured image. -/
structure CameraState where
  srcObject : Option (List Track)
  isCameraActive : Bool
  image : Option String
deriving DecidableEq, Repr

/-- Embeds the successful path of startCamera: getUserMedia resolved with
a stream, which is attached to the video element; the active flag is set
and any previous image is cleared. -/
def startCameraSuccess (tracks : List Track) (st : CameraState) : CameraState :=
  { st with srcObject := some tracks, isCameraActive := true, image := none }

/-- Embeds ImageTranslator.captureImage on its successful path (video and
canvas refs attached, 2d context available): the frame is serialised to a
data URL, the active flag is cleared, and every track of the attached
stream receives one stop call; the srcObject reference itself is not
cleared. -/
def captureImage (dataUrl : String) (st : CameraState) : CameraState :=
  { st with
    image := some dataUrl
    isCameraActive := false
    srcObject := st.srcObject.map stopTracks }

/-- Embeds the unmount cleanup of the ImageTranslator effect: when a
stream is attached to the video element, all its tracks are stopped;
otherwise nothing happens. -/
def unmountCleanup (st : CameraState) : CameraState :=
  match st.srcObject with
  | some s => { st with srcObject := some (stopTracks s) }
  | none => st

/-- C8: capturing a frame from a freshly acquired stream issues exactly
one stop call to each of its tracks, and afterwards no track of the
acquired stream is live; the unmount cleanup leaves no attached stream
with a live track, from any state. -/
theorem camera_tracks_released (st : CameraState) (tracks : List Track)
    (dataUrl : String) (hfresh : ∀ tr ∈ tracks, tr.stopCalls = 0) :
    (∀ tr ∈ ((captureImage dataUrl (startCameraSuccess tracks st)).srcObject.getD []),
      tr.stopCalls = 1) ∧
    (∀ tr ∈ ((captureImage dataUrl (startCameraSuccess tracks st)).srcObject.getD []),
      tr.live = false) ∧
    (∀ st2 : CameraState, ∀ tr ∈ ((unmountCleanup st2).srcObject.getD []),
      tr.live = false) := by
  refine ⟨?_, ?_, ?_⟩
  · intro tr htr
    simp [captureImage, startCameraSuccess, stopTracks] at htr
    obtain ⟨t0, ht0, rfl⟩ := htr
    simp [hfresh t0 ht0]
  · intro tr htr
    simp [captureImage, startCameraSuccess, stopTracks] at htr
    obtain ⟨t0, ht0, rfl⟩ := htr
    simp [Track.live]
  · intro st2 tr htr
    cases h : st2.srcObject with
    | none => simp [unmountCleanup, h] at htr
    | some s =>
      simp [unmountCleanup, h, stopTracks] at htr
      obtain ⟨t0, ht0, rfl⟩ := htr
      simp [Track.live]

/-- Witness for C8 at a concrete state: a single fresh track, captured
and thereby stopped exactly once and no longer live. -/
theorem camera_tracks_released_witness :
    (⟨1⟩ : Track).stopCalls = 1 ∧ Track.live ⟨1⟩ = false := by
  have h := camera_tracks_released ⟨none, false, none⟩ [⟨0⟩]
    "data:image/jpeg;base64,AAAA" (by decide)
  exact ⟨h.1 ⟨1⟩ (by decide), h.2.1 ⟨1⟩ (by decide)⟩
